import Mathlib

/-!
Verification of the play-time allowance service (`src/main.py`).

The core logic is shallowly embedded: instants are modelled as integer
seconds (UTC epoch), the underlying ISO-8601 library parser
(`datetime.fromisoformat`) is an abstract parameter `fromiso`, durations are
integer seconds and minute aggregates are exact rationals (the Python code
uses floats; the spec's numeric semantics are exact-constant, strict
comparisons, which the rational embedding captures).  Local wall-clock
datetimes for the window computations are a (calendar-day index, second of
day) pair; the conversion of window starts to UTC for the query is a fixed
shift and out of scope of the claims.
-/

/-- A Toggl time entry as consumed by `main.py`.  `tags` is `none` when the
`tags` field is absent (the code reads it with `entry.get('tags', [])`),
`start` is the raw ISO-8601 text (or absent) and `duration` is the signed
integer seconds, negative meaning "still running". -/
structure TimeEntry where
  description : Option String
  tags : Option (List String)
  start : Option String
  stop : Option String
  duration : ℤ
deriving Repr, DecidableEq

/-- The focus label used by `check_play_time_allowance`. -/
def focus_tag : String := "专注"

/-- The play label used by `check_play_time_allowance`. -/
def play_tag : String := "娱乐"

/-- `entry.get('tags', [])`: the tags list, defaulting to empty when the
field is absent. -/
def TimeEntry.tagList (e : TimeEntry) : List String := e.tags.getD []

/-- `parse_toggl_datetime` (main.py lines 64-78): empty/absent text parses
to the failure marker `none`; a trailing `"Z"` is rewritten to `"+00:00"`
before handing the text to the library parser `fromiso`; a library-level
parse failure is returned as `none` (the Python code catches `ValueError`
and returns `None`, so nothing is raised past this boundary).  The
"assume UTC when no offset" branch is absorbed into `fromiso`, which
already yields a UTC instant in seconds. -/
def parse_toggl_datetime (fromiso : String → Option ℤ) (datetime_str : Option String) :
    Option ℤ :=
  match datetime_str with
  | none => none
  | some s =>
      if s.isEmpty then none
      else
        let s' := if s.endsWith "Z" then s.dropRight 1 ++ "+00:00" else s
        fromiso s'

/-- `calculate_duration` (main.py lines 80-92): a non-negative stored
duration is kept; a negative (running) duration is recomputed as
`now_utc - start` when `start` parses, and `0` otherwise; the final result
is clamped to `max 0 _`. -/
def calculate_duration (fromiso : String → Option ℤ) (entry : TimeEntry)
    (now_utc : ℤ) : ℤ :=
  let duration := entry.duration
  let duration :=
    if duration < 0 then
      match parse_toggl_datetime fromiso entry.start with
      | some start_time => now_utc - start_time
      | none => 0
    else duration
  max 0 duration

/-- C9: a non-negative stored duration is returned unchanged, for every
current instant `now_utc`. -/
theorem calculate_duration_completed (fromiso : String → Option ℤ)
    (entry : TimeEntry) (now_utc : ℤ) (h : 0 ≤ entry.duration) :
    calculate_duration fromiso entry now_utc = entry.duration := by
  simp only [calculate_duration]
  rw [if_neg (by omega)]
  omega

/-- Witness for C9 at a concrete completed entry. -/
theorem calculate_duration_completed_witness :
    (0 : ℤ) ≤ (7200 : ℤ) ∧
      calculate_duration (fun _ => none)
        ⟨none, some [focus_tag], none, none, 7200⟩ 1000 = 7200 :=
  ⟨by decide,
    calculate_duration_completed (fun _ => none)
      ⟨none, some [focus_tag], none, none, 7200⟩ 1000 (by decide)⟩

/-- C7: a running entry (negative stored duration) whose start parses to
the instant `s` resolves to `max 0 (now_utc - s)` seconds. -/
theorem calculate_duration_running (fromiso : String → Option ℤ)
    (entry : TimeEntry) (now_utc s : ℤ) (hneg : entry.duration < 0)
    (hparse : parse_toggl_datetime fromiso entry.start = some s) :
    calculate_duration fromiso entry now_utc = max 0 (now_utc - s) := by
  simp only [calculate_duration]
  rw [if_pos hneg, hparse]

/-- Witness for C7: a running entry started at instant 100, evaluated at
instant 1000, resolves to 900 seconds. -/
theorem calculate_duration_running_witness :
    ((-1 : ℤ) < 0 ∧
      parse_toggl_datetime (fun _ => some 100) (some "2024-01-01T00:01:40Z") =
        some 100) ∧
    calculate_duration (fun _ => some 100)
      ⟨none, some [focus_tag], some "2024-01-01T00:01:40Z", none, -1⟩ 1000 =
      max 0 (1000 - 100) :=
  ⟨⟨by decide, by rfl⟩,
    calculate_duration_running (fun _ => some 100)
      ⟨none, some [focus_tag], some "2024-01-01T00:01:40Z", none, -1⟩ 1000 100
      (by decide) (by rfl)⟩

/-- C8: a running entry whose start is missing or unparseable contributes
exactly 0 (the parser returns the failure marker `none` instead of raising,
and `calculate_duration` maps it to 0, so the evaluation proceeds). -/
theorem calculate_duration_unparseable (fromiso : String → Option ℤ)
    (entry : TimeEntry) (now_utc : ℤ) (hneg : entry.duration < 0)
    (h : entry.start = none ∨ parse_toggl_datetime fromiso entry.start = none) :
    calculate_duration fromiso entry now_utc = 0 := by
  have hp : parse_toggl_datetime fromiso entry.start = none := by
    rcases h with h | h
    · rw [h]; rfl
    · exact h
  simp only [calculate_duration]
  rw [if_pos hneg, hp]
  rfl

/-- Witness for C8: a running entry with unparseable start text resolves
to 0. -/
theorem calculate_duration_unparseable_witness :
    ((-300 : ℤ) < 0 ∧
      parse_toggl_datetime (fun _ => none) (some "not-a-date") = none) ∧
    calculate_duration (fun _ => none)
      ⟨none, some [focus_tag], some "not-a-date", none, -300⟩ 1000 = 0 :=
  ⟨⟨by decide, by rfl⟩,
    calculate_duration_unparseable (fun _ => none)
      ⟨none, some [focus_tag], some "not-a-date", none, -300⟩ 1000 (by decide)
      (Or.inr (by rfl))⟩

/-- The three JSON responses `check_play_time_allowance` can produce once
input validation and both fetches have succeeded (main.py lines 185, 227,
230): two fixed denial messages and a permitted message carrying the
requested minutes.  No other data appears in the response body. -/
inductive AllowanceResponse where
  | deniedFocusToday : AllowanceResponse
  | deniedWeeklyBudget : AllowanceResponse
  | permitted (requested_play_time_min : ℕ) : AllowanceResponse
deriving Repr, DecidableEq

/-- The exact `(allowed, message)` pair serialized for each response
(main.py lines 185, 227, 230). -/
def AllowanceResponse.body : AllowanceResponse → Bool × String
  | .deniedFocusToday =>
      (false, "Not enough focus has done today to earn you the right to play")
  | .deniedWeeklyBudget => (false, "Too much play time this week")
  | .permitted r =>
      (true, "A play time of " ++ toString r ++ " minutes is permitted")

/-- The stage-1 accumulation loop (main.py lines 173-178): sum of resolved
durations, in seconds, over today's entries whose tags contain the focus
label. -/
def todays_focus_duration_sec (fromiso : String → Option ℤ) (now_utc : ℤ)
    (todays_entries : List TimeEntry) : ℤ :=
  todays_entries.foldl
    (fun acc entry =>
      if focus_tag ∈ entry.tagList then
        acc + calculate_duration fromiso entry now_utc
      else acc) 0

/-- Stage-2 focus accumulation (main.py lines 205-211): sum of resolved
durations, in seconds, over the weekly entries tagged with the focus
label. -/
def total_focus_sec (fromiso : String → Option ℤ) (now_utc : ℤ)
    (weekly_entries : List TimeEntry) : ℤ :=
  weekly_entries.foldl
    (fun acc entry =>
      if focus_tag ∈ entry.tagList then
        acc + calculate_duration fromiso entry now_utc
      else acc) 0

/-- Stage-2 play accumulation (main.py lines 205-213): sum of resolved
durations, in seconds, over the weekly entries tagged with the play label.
The two tag tests in the loop body are independent `if`s, so a dually
tagged entry is counted in both sums. -/
def total_play_sec (fromiso : String → Option ℤ) (now_utc : ℤ)
    (weekly_entries : List TimeEntry) : ℤ :=
  weekly_entries.foldl
    (fun acc entry =>
      if play_tag ∈ entry.tagList then
        acc + calculate_duration fromiso entry now_utc
      else acc) 0

/-- `todays_focus_duration_min` (main.py line 180). -/
def todays_focus_duration_min (fromiso : String → Option ℤ) (now_utc : ℤ)
    (todays_entries : List TimeEntry) : ℚ :=
  (todays_focus_duration_sec fromiso now_utc todays_entries : ℚ) / 60

/-- `total_focus_min` (main.py line 215). -/
def total_focus_min (fromiso : String → Option ℤ) (now_utc : ℤ)
    (weekly_entries : List TimeEntry) : ℚ :=
  (total_focus_sec fromiso now_utc weekly_entries : ℚ) / 60

/-- `total_play_min` (main.py line 216). -/
def total_play_min (fromiso : String → Option ℤ) (now_utc : ℤ)
    (weekly_entries : List TimeEntry) : ℚ :=
  (total_play_sec fromiso now_utc weekly_entries : ℚ) / 60

/-- The decision core of `check_play_time_allowance` (main.py lines
162-230), after input validation (`requested_play_time_min` is a validated
non-negative integer) and with the two fetched entry lists as inputs:
stage 1 denies when today's focus minutes are `< 90`; otherwise stage 2
denies when `total_play_min + requested > total_focus_min * 0.5` and
permits otherwise. -/
def check_play_time_allowance (fromiso : String → Option ℤ) (now_utc : ℤ)
    (requested_play_time_min : ℕ)
    (todays_entries weekly_entries : List TimeEntry) : AllowanceResponse :=
  if todays_focus_duration_min fromiso now_utc todays_entries < 90 then
    .deniedFocusToday
  else
    let threshold := total_focus_min fromiso now_utc weekly_entries * (1 / 2 : ℚ)
    let potential_total_play :=
      total_play_min fromiso now_utc weekly_entries +
        (requested_play_time_min : ℚ)
    if potential_total_play > threshold then .deniedWeeklyBudget
    else .permitted requested_play_time_min

/-- The focus and play labels are distinct strings. -/
theorem focus_tag_ne_play_tag : focus_tag ≠ play_tag := by decide

/-- The play and focus labels are distinct strings. -/
theorem play_tag_ne_focus_tag : play_tag ≠ focus_tag := by decide

/-- C1: the decision is two-staged in order.  When today's focus minutes
are `< 90` the result is the insufficient-focus denial for every weekly
entry list and every request (so the weekly stage is never consulted; in
particular with no entries at all).  When today's focus minutes are
`≥ 90`, the insufficient-focus denial is never produced: the result comes
from stage 2. -/
theorem stage1_gate (fromiso : String → Option ℤ) (now_utc : ℤ)
    (todays_entries : List TimeEntry) :
    (todays_focus_duration_min fromiso now_utc todays_entries < 90 →
      ∀ (requested_play_time_min : ℕ) (weekly_entries : List TimeEntry),
        check_play_time_allowance fromiso now_utc requested_play_time_min
          todays_entries weekly_entries = .deniedFocusToday) ∧
    (90 ≤ todays_focus_duration_min fromiso now_utc todays_entries →
      ∀ (requested_play_time_min : ℕ) (weekly_entries : List TimeEntry),
        check_play_time_allowance fromiso now_utc requested_play_time_min
          todays_entries weekly_entries ≠ .deniedFocusToday) := by
  constructor
  · intro h r w
    simp only [check_play_time_allowance, if_pos h]
  · intro h r w
    simp only [check_play_time_allowance, if_neg (not_lt.mpr h)]
    split
    · simp
    · simp

/-- Witness for C1, Scenario D: with no entries in either window today's
focus is 0 < 90 and the result is the insufficient-focus denial. -/
theorem stage1_gate_witness :
    todays_focus_duration_min (fun _ => none) 0 [] < 90 ∧
      check_play_time_allowance (fun _ => none) 0 0 [] [] =
        .deniedFocusToday :=
  ⟨by norm_num [todays_focus_duration_min, todays_focus_duration_sec, total_focus_min, total_focus_sec, total_play_min, total_play_sec, check_play_time_allowance, TimeEntry.tagList, calculate_duration, focus_tag_ne_play_tag, play_tag_ne_focus_tag],
    (stage1_gate (fun _ => none) 0 []).1 (by norm_num [todays_focus_duration_min, todays_focus_duration_sec, total_focus_min, total_focus_sec, total_play_min, total_play_sec, check_play_time_allowance, TimeEntry.tagList, calculate_duration, focus_tag_ne_play_tag, play_tag_ne_focus_tag]) 0 []⟩

/-- C2: once stage 1 passes, the result is the weekly-budget denial
exactly when `total_play_min + requested > total_focus_min * 0.5`, with
the strict comparison of the source; at the exact boundary the result is
`permitted`. -/
theorem stage2_threshold (fromiso : String → Option ℤ) (now_utc : ℤ)
    (requested_play_time_min : ℕ)
    (todays_entries weekly_entries : List TimeEntry)
    (h : ¬ todays_focus_duration_min fromiso now_utc todays_entries < 90) :
    (check_play_time_allowance fromiso now_utc requested_play_time_min
        todays_entries weekly_entries = .deniedWeeklyBudget ↔
      total_play_min fromiso now_utc weekly_entries +
          (requested_play_time_min : ℚ) >
        total_focus_min fromiso now_utc weekly_entries * (1 / 2 : ℚ)) ∧
    (total_play_min fromiso now_utc weekly_entries +
          (requested_play_time_min : ℚ) =
        total_focus_min fromiso now_utc weekly_entries * (1 / 2 : ℚ) →
      check_play_time_allowance fromiso now_utc requested_play_time_min
        todays_entries weekly_entries = .permitted requested_play_time_min) := by
  simp only [check_play_time_allowance, if_neg h]
  constructor
  · constructor
    · intro heq
      by_contra hgt
      rw [if_neg hgt] at heq
      simp at heq
    · intro hgt
      rw [if_pos hgt]
  · intro heq
    rw [if_neg (by rw [heq]; exact lt_irrefl _)]

/-- Witness for C2, Scenario B: today's focus 120 min, week focus 600 min,
week play 250 min, request 50 min; the projected play 300 equals the limit
300, so the boundary case is `permitted`. -/
theorem stage2_threshold_witness :
    (¬ todays_focus_duration_min (fun _ => none) 0
          [⟨none, some [focus_tag], none, none, 7200⟩] < 90 ∧
      total_play_min (fun _ => none) 0
          [⟨none, some [focus_tag], none, none, 36000⟩,
            ⟨none, some [play_tag], none, none, 15000⟩] + ((50 : ℕ) : ℚ) =
        total_focus_min (fun _ => none) 0
            [⟨none, some [focus_tag], none, none, 36000⟩,
              ⟨none, some [play_tag], none, none, 15000⟩] * (1 / 2 : ℚ)) ∧
    check_play_time_allowance (fun _ => none) 0 50
        [⟨none, some [focus_tag], none, none, 7200⟩]
        [⟨none, some [focus_tag], none, none, 36000⟩,
          ⟨none, some [play_tag], none, none, 15000⟩] = .permitted 50 :=
  ⟨⟨by norm_num [todays_focus_duration_min, todays_focus_duration_sec, total_focus_min, total_focus_sec, total_play_min, total_play_sec, check_play_time_allowance, TimeEntry.tagList, calculate_duration, focus_tag_ne_play_tag, play_tag_ne_focus_tag], by norm_num [todays_focus_duration_min, todays_focus_duration_sec, total_focus_min, total_focus_sec, total_play_min, total_play_sec, check_play_time_allowance, TimeEntry.tagList, calculate_duration, focus_tag_ne_play_tag, play_tag_ne_focus_tag]⟩,
    (stage2_threshold (fun _ => none) 0 50
        [⟨none, some [focus_tag], none, none, 7200⟩]
        [⟨none, some [focus_tag], none, none, 36000⟩,
          ⟨none, some [play_tag], none, none, 15000⟩]
        (by norm_num [todays_focus_duration_min, todays_focus_duration_sec, total_focus_min, total_focus_sec, total_play_min, total_play_sec, check_play_time_allowance, TimeEntry.tagList, calculate_duration, focus_tag_ne_play_tag, play_tag_ne_focus_tag])).2
      (by norm_num [todays_focus_duration_min, todays_focus_duration_sec, total_focus_min, total_focus_sec, total_play_min, total_play_sec, check_play_time_allowance, TimeEntry.tagList, calculate_duration, focus_tag_ne_play_tag, play_tag_ne_focus_tag])⟩

/-- C3: holding the entries fixed, the evaluation is antitone in the
request: if the larger request `r2` is permitted then so is any smaller
request `r1`. -/
theorem monotone_requested (fromiso : String → Option ℤ) (now_utc : ℤ)
    (r1 r2 : ℕ) (todays_entries weekly_entries : List TimeEntry)
    (h12 : r1 ≤ r2)
    (h2 : check_play_time_allowance fromiso now_utc r2 todays_entries
        weekly_entries = .permitted r2) :
    check_play_time_allowance fromiso now_utc r1 todays_entries
      weekly_entries = .permitted r1 := by
  by_cases hd : todays_focus_duration_min fromiso now_utc todays_entries < 90
  · rw [check_play_time_allowance, if_pos hd] at h2
    exact absurd h2 (by simp)
  · simp only [check_play_time_allowance, if_neg hd] at h2 ⊢
    by_cases hp2 : total_play_min fromiso now_utc weekly_entries +
        (r2 : ℚ) > total_focus_min fromiso now_utc weekly_entries * (1 / 2 : ℚ)
    · rw [if_pos hp2] at h2; simp at h2
    · have hp1 : ¬ total_play_min fromiso now_utc weekly_entries +
          (r1 : ℚ) > total_focus_min fromiso now_utc weekly_entries *
            (1 / 2 : ℚ) := by
        push_neg at hp2 ⊢
        exact le_trans (add_le_add_left (by exact_mod_cast h12) _) hp2
      rw [if_neg hp1]

/-- Witness for C3: with today's focus 120 min, week focus 600 min and
week play 250 min, request 50 is permitted, hence request 20 is
permitted. -/
theorem monotone_requested_witness :
    ((20 : ℕ) ≤ 50 ∧
      check_play_time_allowance (fun _ => none) 0 50
          [⟨none, some [focus_tag], none, none, 7200⟩]
          [⟨none, some [focus_tag], none, none, 36000⟩,
            ⟨none, some [play_tag], none, none, 15000⟩] = .permitted 50) ∧
    check_play_time_allowance (fun _ => none) 0 20
        [⟨none, some [focus_tag], none, none, 7200⟩]
        [⟨none, some [focus_tag], none, none, 36000⟩,
          ⟨none, some [play_tag], none, none, 15000⟩] = .permitted 20 :=
  ⟨⟨by decide, by norm_num [todays_focus_duration_min, todays_focus_duration_sec, total_focus_min, total_focus_sec, total_play_min, total_play_sec, check_play_time_allowance, TimeEntry.tagList, calculate_duration, focus_tag_ne_play_tag, play_tag_ne_focus_tag]⟩,
    monotone_requested (fun _ => none) 0 20 50
      [⟨none, some [focus_tag], none, none, 7200⟩]
      [⟨none, some [focus_tag], none, none, 36000⟩,
        ⟨none, some [play_tag], none, none, 15000⟩] (by decide)
      (by norm_num [todays_focus_duration_min, todays_focus_duration_sec, total_focus_min, total_focus_sec, total_play_min, total_play_sec, check_play_time_allowance, TimeEntry.tagList, calculate_duration, focus_tag_ne_play_tag, play_tag_ne_focus_tag])⟩

/-- C10: in the weekly loop the two tag tests are independent `if`s: an
entry carrying the focus label adds its full resolved duration to the
focus sum, an entry carrying the play label adds it to the play sum (so a
dually tagged entry is counted in both), and an entry with no `tags` field
is counted in neither. -/
theorem weekly_sums_independent (fromiso : String → Option ℤ) (now_utc : ℤ)
    (es : List TimeEntry) (e : TimeEntry) :
    (focus_tag ∈ e.tagList →
      total_focus_sec fromiso now_utc (es ++ [e]) =
        total_focus_sec fromiso now_utc es +
          calculate_duration fromiso e now_utc) ∧
    (play_tag ∈ e.tagList →
      total_play_sec fromiso now_utc (es ++ [e]) =
        total_play_sec fromiso now_utc es +
          calculate_duration fromiso e now_utc) ∧
    (e.tags = none →
      total_focus_sec fromiso now_utc (es ++ [e]) =
          total_focus_sec fromiso now_utc es ∧
        total_play_sec fromiso now_utc (es ++ [e]) =
          total_play_sec fromiso now_utc es) := by
  refine ⟨fun hf => ?_, fun hp => ?_, fun hn => ⟨?_, ?_⟩⟩
  · simp only [total_focus_sec, List.foldl_append, List.foldl_cons,
      List.foldl_nil, if_pos hf]
  · simp only [total_play_sec, List.foldl_append, List.foldl_cons,
      List.foldl_nil, if_pos hp]
  · have : focus_tag ∉ e.tagList := by simp [TimeEntry.tagList, hn]
    simp only [total_focus_sec, List.foldl_append, List.foldl_cons,
      List.foldl_nil, if_neg this]
  · have : play_tag ∉ e.tagList := by simp [TimeEntry.tagList, hn]
    simp only [total_play_sec, List.foldl_append, List.foldl_cons,
      List.foldl_nil, if_neg this]

/-- Witness for C10: a concrete dually tagged running-free entry of 600
seconds is added to both weekly sums, and an entry with no tags field to
neither. -/
theorem weekly_sums_independent_witness :
    ((focus_tag ∈ (⟨none, some [focus_tag, play_tag], none, none, 600⟩ :
          TimeEntry).tagList ∧
        play_tag ∈ (⟨none, some [focus_tag, play_tag], none, none, 600⟩ :
          TimeEntry).tagList ∧
        (⟨none, none, none, none, 600⟩ : TimeEntry).tags = none) ∧
      total_focus_sec (fun _ => none) 0
          ([] ++ [⟨none, some [focus_tag, play_tag], none, none, 600⟩]) =
        total_focus_sec (fun _ => none) 0 [] +
          calculate_duration (fun _ => none)
            ⟨none, some [focus_tag, play_tag], none, none, 600⟩ 0) ∧
    total_play_sec (fun _ => none) 0
        ([] ++ [⟨none, some [focus_tag, play_tag], none, none, 600⟩]) =
      total_play_sec (fun _ => none) 0 [] +
        calculate_duration (fun _ => none)
          ⟨none, some [focus_tag, play_tag], none, none, 600⟩ 0 ∧
    total_focus_sec (fun _ => none) 0 ([] ++ [⟨none, none, none, none, 600⟩]) =
      total_focus_sec (fun _ => none) 0 [] :=
  ⟨⟨⟨by decide, by decide, by decide⟩,
      (weekly_sums_independent (fun _ => none) 0 []
          ⟨none, some [focus_tag, play_tag], none, none, 600⟩).1 (by decide)⟩,
    (weekly_sums_independent (fun _ => none) 0 []
        ⟨none, some [focus_tag, play_tag], none, none, 600⟩).2.1 (by decide),
    ((weekly_sums_independent (fun _ => none) 0 []
        ⟨none, none, none, none, 600⟩).2.2 (by decide)).1⟩

/-- C4 counterexample: the claim that a stage-2 denial carries the
aggregates (`total_focus_minutes`, `limit`, `remaining`, ...) is false:
two evaluations whose weekly focus totals differ (1 minute vs 2 minutes)
produce the *identical* response value, whose serialized body is only the
fixed pair `(false, "Too much play time this week")`, so the response
determines none of the claimed payload fields. -/
theorem response_payload_counterexample :
    check_play_time_allowance (fun _ => none) 0 0
        [⟨none, some [focus_tag], none, none, 7200⟩]
        [⟨none, some [focus_tag], none, none, 60⟩,
          ⟨none, some [play_tag], none, none, 6000⟩] =
      check_play_time_allowance (fun _ => none) 0 0
        [⟨none, some [focus_tag], none, none, 7200⟩]
        [⟨none, some [focus_tag], none, none, 120⟩,
          ⟨none, some [play_tag], none, none, 6000⟩] ∧
    total_focus_min (fun _ => none) 0
        [⟨none, some [focus_tag], none, none, 60⟩,
          ⟨none, some [play_tag], none, none, 6000⟩] ≠
      total_focus_min (fun _ => none) 0
        [⟨none, some [focus_tag], none, none, 120⟩,
          ⟨none, some [play_tag], none, none, 6000⟩] ∧
    check_play_time_allowance (fun _ => none) 0 0
        [⟨none, some [focus_tag], none, none, 7200⟩]
        [⟨none, some [focus_tag], none, none, 60⟩,
          ⟨none, some [play_tag], none, none, 6000⟩] =
      .deniedWeeklyBudget ∧
    AllowanceResponse.deniedWeeklyBudget.body =
      (false, "Too much play time this week") := by
  refine ⟨?_, ?_, ?_, rfl⟩ <;>
    norm_num [todays_focus_duration_min, todays_focus_duration_sec,
      total_focus_min, total_focus_sec, total_play_min, total_play_sec,
      check_play_time_allowance, TimeEntry.tagList, calculate_duration,
      focus_tag_ne_play_tag, play_tag_ne_focus_tag]

/-- C4 amended: every decision output is one of exactly three tagged
responses — the stage-1 denial, the stage-2 denial, or `permitted` carrying
the requested minutes — and the serialized body of each is only an
`allowed` flag plus a message (the permitted message embeds the requested
minutes); no aggregate, limit or remaining field is carried. -/
theorem response_payload_shape (fromiso : String → Option ℤ) (now_utc : ℤ)
    (requested_play_time_min : ℕ)
    (todays_entries weekly_entries : List TimeEntry) :
    (check_play_time_allowance fromiso now_utc requested_play_time_min
          todays_entries weekly_entries = .deniedFocusToday ∨
      check_play_time_allowance fromiso now_utc requested_play_time_min
          todays_entries weekly_entries = .deniedWeeklyBudget ∨
      check_play_time_allowance fromiso now_utc requested_play_time_min
          todays_entries weekly_entries =
        .permitted requested_play_time_min) ∧
    AllowanceResponse.deniedFocusToday.body =
      (false, "Not enough focus has done today to earn you the right to play") ∧
    AllowanceResponse.deniedWeeklyBudget.body =
      (false, "Too much play time this week") ∧
    (AllowanceResponse.permitted requested_play_time_min).body =
      (true, "A play time of " ++ toString requested_play_time_min ++
        " minutes is permitted") := by
  refine ⟨?_, rfl, rfl, rfl⟩
  simp only [check_play_time_allowance]
  split
  · exact Or.inl rfl
  · split
    · exact Or.inr (Or.inl rfl)
    · exact Or.inr (Or.inr rfl)

/-- A local wall-clock datetime, as manipulated by the window computations
in `check_play_time_allowance` (main.py lines 137-145): a local calendar
day index and the second of that day.  Day 0 is fixed to be a Monday, so
Python's `date.weekday()` convention (Monday = 0) is `day % 7`.
`dt.replace(...)` and `dt - timedelta(days=...)` act on the wall clock,
exactly as the pytz-localized Python datetimes do in the source. -/
structure LocalDateTime where
  day : ℤ
  sod : ℕ
deriving Repr, DecidableEq

/-- `dt.replace(hour=h, minute=m, second=s, microsecond=0)`. -/
def LocalDateTime.replaceTime (d : LocalDateTime) (hour minute second : ℕ) :
    LocalDateTime :=
  ⟨d.day, hour * 3600 + minute * 60 + second⟩

/-- `dt - timedelta(days=n)` on the wall clock. -/
def LocalDateTime.subDays (d : LocalDateTime) (n : ℤ) : LocalDateTime :=
  ⟨d.day - n, d.sod⟩

/-- Python's `date.weekday()`: 0 = Monday, ..., 6 = Sunday. -/
def LocalDateTime.weekday (d : LocalDateTime) : ℤ := d.day % 7

/-- `today_4am_local` (main.py lines 140-142): replace the time with
4:00:00 and step back one day when the current wall-clock time is before
4:00 AM. -/
def today_4am_local (now_local : LocalDateTime) : LocalDateTime :=
  let t := now_local.replaceTime 4 0 0
  if now_local.sod < 4 * 3600 then t.subDays 1 else t

/-- `start_of_week_local` (main.py lines 144-145): step back by the
weekday index, then replace the time with midnight. -/
def start_of_week_local (now_local : LocalDateTime) : LocalDateTime :=
  (now_local.subDays now_local.weekday).replaceTime 0 0 0

/-- C5: the today-window start is local 4:00:00 AM of the current
calendar day when the wall-clock time is at or after 4:00 AM, and 4:00 AM
of the previous calendar day when it is strictly before 4:00 AM. -/
theorem today_window_start (now_local : LocalDateTime) :
    (4 * 3600 ≤ now_local.sod →
      today_4am_local now_local = ⟨now_local.day, 4 * 3600⟩) ∧
    (now_local.sod < 4 * 3600 →
      today_4am_local now_local = ⟨now_local.day - 1, 4 * 3600⟩) := by
  constructor
  · intro h
    simp [today_4am_local, LocalDateTime.replaceTime, not_lt.mpr h]
  · intro h
    simp [today_4am_local, LocalDateTime.replaceTime, LocalDateTime.subDays, h]

/-- Witness for C5: at local 03:59 on day 5 the window starts at 4:00 AM
of day 4; at local 04:01 on day 5 it starts at 4:00 AM of day 5. -/
theorem today_window_start_witness :
    ((⟨5, 14340⟩ : LocalDateTime).sod < 4 * 3600 ∧
      4 * 3600 ≤ (⟨5, 14460⟩ : LocalDateTime).sod) ∧
    today_4am_local ⟨5, 14340⟩ = ⟨4, 14400⟩ ∧
    today_4am_local ⟨5, 14460⟩ = ⟨5, 14400⟩ :=
  ⟨⟨by decide, by decide⟩,
    (today_window_start ⟨5, 14340⟩).2 (by decide),
    (today_window_start ⟨5, 14460⟩).1 (by decide)⟩

/-- C6: the week-window start is local midnight of the most recent Monday:
its time is 00:00:00, its weekday is Monday, it is `now`'s day minus the
weekday index (hence at most `now`'s day and less than 7 days back), and
when `now` falls on a Monday it is that same day. -/
theorem week_window_start (now_local : LocalDateTime) :
    (start_of_week_local now_local).sod = 0 ∧
    (start_of_week_local now_local).weekday = 0 ∧
    (start_of_week_local now_local).day =
      now_local.day - now_local.weekday ∧
    (start_of_week_local now_local).day ≤ now_local.day ∧
    now_local.day - (start_of_week_local now_local).day < 7 ∧
    (now_local.weekday = 0 →
      (start_of_week_local now_local).day = now_local.day) := by
  have e1 : (start_of_week_local now_local).day =
      now_local.day - now_local.day % 7 := rfl
  have e2 : (start_of_week_local now_local).sod = 0 := rfl
  have e3 : (start_of_week_local now_local).weekday =
      (now_local.day - now_local.day % 7) % 7 := rfl
  have e4 : now_local.weekday = now_local.day % 7 := rfl
  refine ⟨e2, by rw [e3]; omega, by rw [e1, e4], by rw [e1]; omega,
    by rw [e1]; omega, fun h => ?_⟩
  rw [e4] at h
  rw [e1]
  omega

/-- Witness for C6: day 9 (a Wednesday, weekday 2) yields midnight of day
7, the immediately preceding Monday; day 7 (a Monday) yields its own
midnight. -/
theorem week_window_start_witness :
    ((⟨9, 3600⟩ : LocalDateTime).weekday = 2 ∧
      (⟨7, 500⟩ : LocalDateTime).weekday = 0) ∧
    (start_of_week_local ⟨9, 3600⟩).day = 9 - 2 ∧
    (start_of_week_local ⟨9, 3600⟩).sod = 0 ∧
    (start_of_week_local ⟨7, 500⟩).day = 7 :=
  ⟨⟨by decide, by decide⟩,
    (week_window_start ⟨9, 3600⟩).2.2.1,
    (week_window_start ⟨9, 3600⟩).1,
    (week_window_start ⟨7, 500⟩).2.2.2.2.2 (by decide)⟩
